import Mathlib

/-!
Verification development for the `cgl_api` analytics pipeline
(`Python/cgl_api/services/*.py` plus its request/response schemas).

Modelling conventions, fixed throughout this file:

* Python `int` is modelled as `ℤ` (or `ℕ` where the schema validates
  non-negativity), Python `float` arithmetic as exact `ℚ` arithmetic.
  Python's `round(x, n)` (round-half-to-even) is modelled exactly on `ℚ`
  by `pyRound`.
* `datetime` instants are modelled as integer UTC timestamps in seconds;
  `(now - published_at).days` is Python floor division of the second
  difference by 86400 (`timedelta` normalises with `days = ⌊·⌋`).
* Python's stable `sorted(xs, key=k)` is `List.insertionSort` with the
  relation `k a ≤ k b` (`insertionSort` with a reflexive total relation
  is stable, like CPython's sort); `sorted(xs, key=k, reverse=True)` is
  `insertionSort` with the flipped relation `k b ≤ k a`, which is what
  CPython's stable descending sort computes.
* A Python dict record is modelled as a structure; a possibly-missing
  dict key is an `Option` field (a missing key surfaces as NaN once the
  rows are put into a pandas DataFrame).
* Raised Python exceptions are modelled with `Except String`; the
  `String` carries the kind of error.
-/

/-- Python `round` to an integer: round half to even (banker's rounding),
modelled exactly on `ℚ`. -/
def roundHalfEven (q : ℚ) : ℤ :=
  let n : ℤ := ⌊q⌋
  let f : ℚ := q - n
  if f < 1/2 then n
  else if 1/2 < f then n + 1
  else if Even n then n else n + 1

/-- Python `round(q, digits)` for `digits ≥ 0`, modelled exactly on `ℚ`. -/
def pyRound (digits : ℕ) (q : ℚ) : ℚ :=
  (roundHalfEven (q * 10 ^ digits) : ℚ) / 10 ^ digits

namespace FeatureService

/-- Return value of `FeatureService.numeric_rates`
(`services/feature_service.py`, lines 56-76): the three engagement-rate
fields of the returned dict. -/
structure Rates where
  engagement_rate : ℚ
  likes_rate : ℚ
  comments_rate : ℚ
deriving DecidableEq, Repr

/-- Embedding of `FeatureService.numeric_rates(views, likes, comments)`
(`services/feature_service.py`, lines 56-76): clamp the three inputs to
non-negative; if `views <= 0` return all three rates as `0.0`; otherwise
return `(likes+comments)/views`, `likes/views`, `comments/views`, each
rounded to 8 decimal places. -/
def numeric_rates (views likes comments : ℤ) : Rates :=
  let v : ℤ := max views 0
  let l : ℤ := max likes 0
  let c : ℤ := max comments 0
  if v ≤ 0 then
    { engagement_rate := 0, likes_rate := 0, comments_rate := 0 }
  else
    { engagement_rate := pyRound 8 (((l : ℚ) + (c : ℚ)) / (v : ℚ))
      likes_rate := pyRound 8 ((l : ℚ) / (v : ℚ))
      comments_rate := pyRound 8 ((c : ℚ) / (v : ℚ)) }

end FeatureService

/-- Model of `ChannelAnalysisRequest` (`schemas/request.py`). Pydantic validates
`n_videos` (ge=1, le=200) and `baseline_window` (ge=5, le=100) to be
positive integers, so both are modelled as `ℕ`. -/
structure ChannelAnalysisRequest where
  channel_id : String
  n_videos : ℕ
  baseline_window : ℕ
deriving DecidableEq, Repr

/-- One raw video record as materialised by the external YouTube
collaborator (`yt.get_videos_details`), before the pipeline attaches
derived fields: id, title, publish instant (UTC seconds), duration and
the three counters. -/
structure RawRecord where
  video_id : String
  title : String
  published_at : ℤ
  duration_seconds : ℤ
  views : ℤ
  likes : ℤ
  comments : ℤ
deriving DecidableEq, Repr, Inhabited

/-- A record after steps 2 and 3 of `run_channel_analysis`
(`services/analytics_service.py`, lines 44-55): `views_per_day` and the
numeric rates have been attached.  The title/time features are also
attached there by the source but are never read again by this revision
of the orchestrator (its drivers are hard-coded), so they are not
carried in the model. -/
structure EnrichedRecord where
  raw : RawRecord
  views_per_day : ℚ
  engagement_rate : ℚ
  likes_rate : ℚ
  comments_rate : ℚ
deriving DecidableEq, Repr, Inhabited

/-- A record after step 6 of `run_channel_analysis`
(`services/analytics_service.py`, lines 65-67): `relative_performance`
attached. -/
structure ScoredRecord where
  base : EnrichedRecord
  relative_performance : ℚ
deriving DecidableEq, Repr

/-- Model of `Kpis` (`schemas/response.py`). -/
structure Kpis where
  videos_analyzed : ℕ
  baseline_views_per_day : ℚ
  median_relative_performance : ℚ
  avg_engagement_rate : ℚ
deriving DecidableEq, Repr

/-- Model of `TrendPoint` (`schemas/response.py`). -/
structure TrendPoint where
  published_at : ℤ
  views : ℤ
  views_per_day : ℚ
  relative_performance : ℚ
deriving DecidableEq, Repr

/-- Model of `DriverEffect` (`schemas/response.py`): `direction` is the literal
string `"increase"` or `"decrease"`. -/
structure DriverEffect where
  feature : String
  effect_percent : ℚ
  unit_change : String
  direction : String
deriving DecidableEq, Repr

/-- Model of `Recommendation` (`schemas/response.py`). -/
structure Recommendation where
  title : String
  detail : String
  expected_impact_percent : Option ℚ
  confidence : String
deriving DecidableEq, Repr

/-- Model of `MetaInfo` (`schemas/response.py`). -/
structure MetaInfo where
  channel_id : String
  n_videos : ℕ
  baseline_window : ℕ
  generated_at : ℤ
deriving DecidableEq, Repr

/-- Model of `ChannelIdentity` (`schemas/response.py`). -/
structure ChannelIdentity where
  channel_id : String
  title : String
  thumbnail_url : String
deriving DecidableEq, Repr

/-- Model of `AnalyticsResponse` (`schemas/response.py`, lines 82-95).  `meta`,
`channel` and `kpis` are required fields without defaults; the remaining
fields have list defaults.  The topic fields are defaulted and never
passed by this revision of the orchestrator, so they are not carried in
the model. -/
structure AnalyticsResponse where
  meta : MetaInfo
  channel : ChannelIdentity
  kpis : Kpis
  trends : List TrendPoint
  drivers : List DriverEffect
  recommendations : List Recommendation
  warnings : List String
deriving DecidableEq, Repr

/-- Pydantic construction of `AnalyticsResponse`: every required field
must be supplied as a keyword argument, otherwise construction raises a
`ValidationError`.  `channel` is the one required field the orchestrator
may fail to pass, so it is taken as an `Option`; `none` models the
constructor call without a `channel=` keyword. -/
def AnalyticsResponse.construct (meta : MetaInfo) (channel? : Option ChannelIdentity)
    (kpis : Kpis) (trends : List TrendPoint) (drivers : List DriverEffect)
    (recommendations : List Recommendation) (warnings : List String) :
    Except String AnalyticsResponse :=
  match channel? with
  | none => .error "ValidationError: field required: channel"
  | some channel =>
      .ok { meta := meta, channel := channel, kpis := kpis, trends := trends
            drivers := drivers, recommendations := recommendations
            warnings := warnings }

namespace AnalyticsService

/-- Step 2 of `run_channel_analysis` (`services/analytics_service.py`,
lines 44-48), fused with step 3's `numeric_rates` update (lines 50-53):
`age_days = max((now - published_at).days, 1)` and
`views_per_day = views / age_days`. -/
def age_days (now pub : ℤ) : ℤ :=
  max (Int.fdiv (now - pub) 86400) 1

/-- Steps 2-3 of `run_channel_analysis`: attach `views_per_day` and the
numeric rates to every row, in the original row order. -/
def enrichRows (now : ℤ) (rows : List RawRecord) : List EnrichedRecord :=
  rows.map fun r =>
    { raw := r
      views_per_day := (r.views : ℚ) / (age_days now r.published_at : ℚ)
      engagement_rate := (FeatureService.numeric_rates r.views r.likes r.comments).engagement_rate
      likes_rate := (FeatureService.numeric_rates r.views r.likes r.comments).likes_rate
      comments_rate := (FeatureService.numeric_rates r.views r.likes r.comments).comments_rate }

/-- Step 4 of `run_channel_analysis` (line 58):
`sorted(rows, key=published_at, reverse=True)` — stable descending sort
by publish time. -/
def pubDesc (a b : EnrichedRecord) : Prop :=
  b.raw.published_at ≤ a.raw.published_at

instance : DecidableRel pubDesc := fun _ _ => Int.decLe _ _

def sortNewestFirst (rows : List EnrichedRecord) : List EnrichedRecord :=
  rows.insertionSort pubDesc

/-- Step 5 of `run_channel_analysis` (line 61): the baseline window
`rows_sorted[:min(baseline_window, len(rows_sorted))]`. -/
def baselineWindow (bw : ℕ) (rowsSorted : List EnrichedRecord) : List EnrichedRecord :=
  rowsSorted.take (min bw rowsSorted.length)

/-- Step 5 of `run_channel_analysis` (lines 62-63): ascending sort of the
window's `views_per_day` values, then
`vpd_window[len(vpd_window) // 2] if vpd_window else 1.0`. -/
def baselineOfWindow (window : List EnrichedRecord) : ℚ :=
  let vpd_window := (window.map (·.views_per_day)).insertionSort (· ≤ ·)
  if vpd_window = [] then 1 else vpd_window.getD (vpd_window.length / 2) 0

/-- Steps 2-5 of `run_channel_analysis` composed: the baseline computed
for a run over `rows` with the given `baseline_window` at instant `now`. -/
def computeBaseline (bw : ℕ) (now : ℤ) (rows : List RawRecord) : ℚ :=
  baselineOfWindow (baselineWindow bw (sortNewestFirst (enrichRows now rows)))

/-- Step 6 of `run_channel_analysis` (lines 65-67):
`relative_performance = views_per_day / baseline if baseline else 0.0`
for every sorted row. -/
def scoreRows (baseline : ℚ) (rowsSorted : List EnrichedRecord) : List ScoredRecord :=
  rowsSorted.map fun r =>
    { base := r
      relative_performance := if baseline ≠ 0 then r.views_per_day / baseline else 0 }

/-- Step 7 of `run_channel_analysis` (lines 75-80): the median of the
relative-performance list — averaged middle pair on even counts, middle
element on odd counts, `0.0` on the empty list. -/
def medianRel (rel_perf : List ℚ) : ℚ :=
  let rel_sorted := rel_perf.insertionSort (· ≤ ·)
  if rel_sorted = [] then 0
  else
    let mid := rel_sorted.length / 2
    if rel_sorted.length % 2 = 1 then rel_sorted.getD mid 0
    else (rel_sorted.getD (mid - 1) 0 + rel_sorted.getD mid 0) / 2

/-- The fully processed, newest-first record list of a run (steps 2-6 of
`run_channel_analysis`). -/
def processedRows (bw : ℕ) (now : ℤ) (rows : List RawRecord) : List ScoredRecord :=
  scoreRows (computeBaseline bw now rows) (sortNewestFirst (enrichRows now rows))

/-- The `relative_performance` values of a run, newest first (line 71). -/
def relPerfValues (bw : ℕ) (now : ℤ) (rows : List RawRecord) : List ℚ :=
  (processedRows bw now rows).map (·.relative_performance)

/-- Step 7 of `run_channel_analysis` (lines 70-87): the assembled KPIs. -/
def kpisOf (bw : ℕ) (now : ℤ) (rows : List RawRecord) : Kpis :=
  let rows_sorted := processedRows bw now rows
  let eng_rates := rows_sorted.map (·.base.engagement_rate)
  let avg_engagement := if eng_rates = [] then 0 else eng_rates.sum / eng_rates.length
  { videos_analyzed := rows_sorted.length
    baseline_views_per_day := computeBaseline bw now rows
    median_relative_performance := medianRel (relPerfValues bw now rows)
    avg_engagement_rate := avg_engagement }

/-- Step 8 of `run_channel_analysis` (lines 89-99): the trend series over
the most recent `min(len, 30)` records, with `views_per_day` and
`relative_performance` rounded to 3 decimals. -/
def trendsOf (bw : ℕ) (now : ℤ) (rows : List RawRecord) : List TrendPoint :=
  let rows_sorted := processedRows bw now rows
  (rows_sorted.take (min rows_sorted.length 30)).map fun r =>
    { published_at := r.base.raw.published_at
      views := r.base.raw.views
      views_per_day := pyRound 3 r.base.views_per_day
      relative_performance := pyRound 3 r.relative_performance }

/-- The hard-coded placeholder drivers of `run_channel_analysis`
(`services/analytics_service.py`, lines 101-105; the comment reads
"Dummy drivers (until Step D)"). -/
def dummyDrivers : List DriverEffect :=
  [ { feature := "title_word_count", effect_percent := -9, unit_change := "-5 words",
      direction := "decrease" },
    { feature := "has_number", effect_percent := 6, unit_change := "+1 (false to true)",
      direction := "increase" } ]

/-- The hard-coded placeholder recommendations of `run_channel_analysis`
(lines 107-121). -/
def dummyRecommendations : List Recommendation :=
  [ { title := "Shorten titles slightly",
      detail := "For your channel, shorter titles are associated with higher relative performance.",
      expected_impact_percent := some 9, confidence := "medium" },
    { title := "Use numbers in titles occasionally",
      detail := "Titles containing numbers are associated with improved relative performance in your recent uploads.",
      expected_impact_percent := some 6, confidence := "low" } ]

/-- The payload computed by `run_channel_analysis` up to line 121: every
value passed to the `AnalyticsResponse(...)` constructor call. -/
structure Payload where
  meta : MetaInfo
  kpis : Kpis
  trends : List TrendPoint
  drivers : List DriverEffect
  recommendations : List Recommendation
  warnings : List String
deriving DecidableEq, Repr

/-- Body of `run_channel_analysis` from the records onward, stopping just before
the response construction (lines 32-121): assembles the constructor
arguments of line 123. -/
def assemblePayload (req : ChannelAnalysisRequest) (now : ℤ) (rows : List RawRecord) :
    Payload :=
  { meta := { channel_id := req.channel_id, n_videos := req.n_videos
              baseline_window := req.baseline_window, generated_at := now }
    kpis := kpisOf req.baseline_window now rows
    trends := trendsOf req.baseline_window now rows
    drivers := dummyDrivers
    recommendations := dummyRecommendations
    warnings := [] }

/-- Embedding of `AnalyticsService.run_channel_analysis` (lines 32-138) from the point
where the raw records are materialised: assemble the payload, then call
the `AnalyticsResponse` constructor (lines 123-135).  The source passes
no `channel=` argument, modelled by `none`. -/
def run_channel_analysis (req : ChannelAnalysisRequest) (now : ℤ)
    (rows : List RawRecord) : Except String AnalyticsResponse :=
  let p := assemblePayload req now rows
  AnalyticsResponse.construct p.meta none p.kpis p.trends p.drivers
    p.recommendations p.warnings

end AnalyticsService

namespace ModelService

/-- The fixed feature list `ModelService.FEATURES`
(`services/model_service.py`, lines 28-40), as an enumeration; the
source spells the names in snake_case strings. -/
inductive FeatureName where
  | durationSeconds
  | titleLengthChars
  | titleWordCount
  | hasNumber
  | hasQuestion
  | hasBrackets
  | capsRatio
  | emojiCount
  | publishHour
  | publishDayOfWeek
  | isWeekend
deriving DecidableEq, Repr

/-- The list `ModelService.FEATURES` in source order. -/
def FEATURES : List FeatureName :=
  [.durationSeconds, .titleLengthChars, .titleWordCount, .hasNumber,
   .hasQuestion, .hasBrackets, .capsRatio, .emojiCount, .publishHour,
   .publishDayOfWeek, .isWeekend]

/-- The boolean feature columns cast with `.astype(int)`
(`services/model_service.py`, line 97). -/
def BOOL_FEATURES : List FeatureName :=
  [.hasNumber, .hasQuestion, .hasBrackets, .isWeekend]

/-- One input row of `ModelService.train_and_explain`: a dict whose
`relative_performance` key and feature keys may each be present (with a
finite numeric value) or absent.  An absent key becomes NaN in the
pandas DataFrame column whenever some other row carries the key. -/
structure MRow where
  rp? : Option ℚ
  feat : FeatureName → Option ℚ

/-- A feature column exists in `pd.DataFrame(rows)` iff at least one row
dict carries the key; row filtering never removes a column. -/
def hasFeatureColumn (rows : List MRow) (f : FeatureName) : Bool :=
  rows.any fun r => (r.feat f).isSome

/-- The `relative_performance` column exists iff some row carries the
key (`services/model_service.py`, line 65). -/
def hasRpColumn (rows : List MRow) : Bool :=
  rows.any fun r => r.rp?.isSome

/-- Embedding of `df.dropna(subset=["relative_performance"])` followed by
`df[df["relative_performance"] > 0]` (lines 73-74): the rows whose
`relative_performance` is present and positive. -/
def filterRows (rows : List MRow) : List MRow :=
  rows.filter fun r => match r.rp? with | some v => decide (0 < v) | none => false

/-- Model of `ModelOutput` (`services/model_service.py`, lines 12-17); the
`metrics` dict of the guard outputs is always empty and is not carried. -/
structure ModelOutput where
  drivers : List DriverEffect
  recommendations : List Recommendation
  warnings : List String
deriving DecidableEq, Repr

/-- Warning attached when fewer than 8 rows are supplied (line 60). -/
def tooFewVideosMsg : String :=
  "Too few videos for stable modeling. Driver effects may be unreliable."

/-- Warning of the missing-target guard (line 69). -/
def missingRpMsg : String :=
  "Missing relative_performance; Step C must compute it before Step D."

/-- Warning of the too-few-valid-rows guard (line 80). -/
def notEnoughRowsMsg : String :=
  "Not enough valid rows after filtering (relative_performance <= 0 or missing)."

/-- Warning of the missing-feature-columns guard (line 90); the source
interpolates the missing names into the string. -/
def missingFeaturesMsg (missing : List FeatureName) : String :=
  "Missing feature columns: " ++ toString (repr missing)

/-- Warning of the near-zero-variance guard (line 107). -/
def zeroVarianceMsg : String :=
  "Target has near-zero variance; cannot learn meaningful drivers."

/-- The guard stage of `ModelService.train_and_explain`
(`services/model_service.py`, lines 57-109), ending where the model is
actually trained (line 112).

`closeToFirst` abstracts the library call
`np.allclose(y, y[0])` for `y = np.log(df["relative_performance"])`
(lines 101-103): it receives the filtered positive
`relative_performance` values and decides whether all of their (float)
logarithms are within `np.allclose` tolerance of the first one.  Only
this numeric library call is abstracted; every branch of the source is
embedded.

Results: `.error` models a raised exception — the `.astype(int)` casts
of line 97-98 raise `ValueError` when a boolean feature column exists
but some filtered row lacks the key (NaN cannot be cast to int);
`.ok (some out)` models a guard returning `out` early; `.ok none` models
execution proceeding past line 109 into the training stage. -/
def train_and_explain_guards (closeToFirst : List ℚ → Bool) (rows : List MRow) :
    Except String (Option ModelOutput) :=
  let warnings := if rows.length < 8 then [tooFewVideosMsg] else []
  if ¬ hasRpColumn rows then
    .ok (some { drivers := [], recommendations := [], warnings := [missingRpMsg] })
  else
    let df := filterRows rows
    if df.length < 5 then
      .ok (some { drivers := [], recommendations := [],
                  warnings := warnings ++ [notEnoughRowsMsg] })
    else
      let missing := FEATURES.filter fun f => ¬ hasFeatureColumn rows f
      if missing ≠ [] then
        .ok (some { drivers := [], recommendations := [],
                    warnings := warnings ++ [missingFeaturesMsg missing] })
      else
        if BOOL_FEATURES.any (fun col => df.any fun r => (r.feat col).isNone) then
          .error "ValueError: cannot convert float NaN to integer"
        else
          if closeToFirst (df.filterMap (·.rp?)) then
            .ok (some { drivers := [], recommendations := [],
                        warnings := warnings ++ [zeroVarianceMsg] })
          else
            .ok none

end ModelService

namespace TopicService

/-- Noise resolution loop of `TopicService._cluster`
(`services/topic_service.py`, lines 72-81): walk the raw labels keeping
a `next_topic_id` counter; each noise label `-1` is replaced by the
current counter value, which is then incremented; other labels are kept. -/
def resolveNoiseAux : List ℤ → ℤ → List ℤ
  | [], _ => []
  | l :: ls, next =>
      if l = -1 then next :: resolveNoiseAux ls (next + 1)
      else l :: resolveNoiseAux ls next

/-- Lines 72-81 of `services/topic_service.py`:
`next_topic_id = max(raw_labels) + 1 if max(raw_labels) >= 0 else 0`,
then the resolution loop.  `max` of an empty list raises in Python;
`_cluster` is only reached with at least one title, so the empty case
is given the junk value `[]`. -/
def resolveNoise (raw : List ℤ) : List ℤ :=
  match raw.max? with
  | none => []
  | some m => resolveNoiseAux raw (if 0 ≤ m then m + 1 else 0)

/-- Remapping step of `TopicService._cluster` (lines 83-87):
`unique = sorted(set(resolved))`, `id_map = {old: i}`, and the final
`[id_map[x] for x in resolved]`. -/
def remapDense (resolved : List ℤ) : List ℕ :=
  let unique := resolved.dedup.insertionSort (· ≤ ·)
  resolved.map fun x => unique.indexOf x

/-- Embedding of `TopicService._cluster` (lines 63-87) downstream of the external
`hdbscan` call: the post-processing of the raw cluster labels into the
per-video topic ids. -/
def cluster (raw_labels : List ℤ) : List ℕ :=
  remapDense (resolveNoise raw_labels)

/-- One row as consumed by the Topic Engine: the fields of the record
dicts that `_build_topic_summaries` reads. -/
structure TRow where
  video_id : String
  title : String
  published_at : ℤ
  views_per_day : ℚ
  relative_performance : ℚ
deriving DecidableEq, Repr

/-- Model of `np.mean` over `ℚ` (division by zero yields the junk value `0`;
every call site below passes a non-empty list). -/
def qMean (l : List ℚ) : ℚ := l.sum / (l.length : ℚ)

/-- Model of `statistics.median`: middle element on odd counts, the mean of the
two middle elements on even counts (raises on the empty list; junk `0`
here). -/
def statMedian (l : List ℚ) : ℚ :=
  let s := l.insertionSort (· ≤ ·)
  if s.length % 2 = 1 then s.getD (s.length / 2) 0
  else (s.getD (s.length / 2 - 1) 0 + s.getD (s.length / 2) 0) / 2

/-- One topic summary (`schemas/response.py` `TopicSummary`), restricted
to its rational-valued fields.  `label` (plumbed through untouched from
`_compute_labels`), `volatility` (a population standard deviation, hence
a real square root) and `confidence` (`min(1, n/10) * exp(-volatility)`)
are not carried: no claim mentions them and the two latter are
irrational-valued. -/
structure TopicSummary where
  topic_id : ℤ
  n_videos : ℕ
  avg_relative_performance : ℚ
  median_relative_performance : ℚ
  avg_views_per_day : ℚ
  recent_avg_relative_performance : ℚ
  older_avg_relative_performance : ℚ
  momentum : ℚ
  trend_slope : ℚ
  fatigue : Bool
  hit_rate : ℚ
  best_recent : ℚ
  worst_recent : ℚ
  top_examples : List String
deriving DecidableEq, Repr

/-- The per-topic body of `TopicService._build_topic_summaries`
(`services/topic_service.py`, lines 149-215): sort the topic's items by
publish time ascending, then compute the adaptive-window momentum, the
OLS trend slope, the fatigue flag (line 177:
`momentum < -0.15 and n >= 4`), the hit rate and the recent extremes. -/
def pubAsc (a b : TRow) : Prop :=
  a.published_at ≤ b.published_at

instance : DecidableRel pubAsc := fun _ _ => Int.decLe _ _

def summarizeTopic (tid : ℤ) (itemsIn : List TRow) : TopicSummary :=
  let items := itemsIn.insertionSort pubAsc
  let rel := items.map (·.relative_performance)
  let vpd := items.map (·.views_per_day)
  let n := items.length
  let k := min 3 (max 1 (n / 2))
  let older := rel.take k
  let recent := rel.drop (n - k)
  let older_avg := qMean older
  let recent_avg := qMean recent
  let momentum := recent_avg - older_avg
  let xbar : ℚ := (((List.range n).map fun i => (i : ℚ)).sum) / (n : ℚ)
  let ybar := qMean rel
  let denom := (((List.range n).map fun i => ((i : ℚ) - xbar) ^ 2)).sum
  let numer := ((((List.range n).zip rel).map fun p => ((p.1 : ℚ) - xbar) * (p.2 - ybar))).sum
  let slope := if 0 < denom then numer / denom else 0
  let hits := rel.filter fun r => decide (1 ≤ r)
  { topic_id := tid
    n_videos := n
    avg_relative_performance := qMean rel
    median_relative_performance := statMedian rel
    avg_views_per_day := qMean vpd
    recent_avg_relative_performance := recent_avg
    older_avg_relative_performance := older_avg
    momentum := momentum
    trend_slope := slope
    fatigue := decide (momentum < -(3/20) ∧ 4 ≤ n)
    hit_rate := (hits.length : ℚ) / (n : ℚ)
    best_recent := (recent.max?).getD (rel.getLastD 0)
    worst_recent := (recent.min?).getD (rel.getLastD 0)
    top_examples := (items.map (·.title)).take 3 }

/-- The merged "Misc / One-offs" bucket of `_build_topic_summaries`
(lines 218-248): aggregates are recomputed from the singleton summaries'
own derived values, the temporal fields are zeroed, and the topic id is
the sentinel `-1` (line 230). -/
def miscSummary (singletons : List TopicSummary) : TopicSummary :=
  let misc_rel := singletons.map (·.avg_relative_performance)
  let misc_vpd := singletons.map (·.avg_views_per_day)
  let examples := (singletons.map (·.top_examples)).flatten
  { topic_id := -1
    n_videos := singletons.length
    avg_relative_performance := qMean misc_rel
    median_relative_performance := statMedian misc_rel
    avg_views_per_day := qMean misc_vpd
    recent_avg_relative_performance := 0
    older_avg_relative_performance := 0
    momentum := 0
    trend_slope := 0
    fatigue := false
    hit_rate := 0
    best_recent := (misc_rel.max?).getD 0
    worst_recent := (misc_rel.min?).getD 0
    top_examples := examples.take 5 }

/-- Key order of `defaultdict` grouping: first-occurrence order of the
topic ids, as Python dict insertion order gives. -/
def firstOccKeys (tids : List ℤ) : List ℤ :=
  tids.foldl (fun acc t => if t ∈ acc then acc else acc ++ [t]) []

/-- The members of one topic, in row order (lines 142-145). -/
def groupRows (rows : List TRow) (tids : List ℤ) (tid : ℤ) : List TRow :=
  ((rows.zip tids).filter fun p => p.2 = tid).map (·.1)

/-- Embedding of `TopicService._build_topic_summaries` (lines 136-254): group the rows
by topic id, summarize each group, pull out the singleton topics
(`n_videos < 2`) into the merged `-1` bucket, and sort by
`_topic_score` descending.  The score involves `np.log1p` (irrational),
so the final stable sort's comparator is abstracted as the `score`
parameter. -/
def build_topic_summaries (score : TopicSummary → TopicSummary → Prop)
    [DecidableRel score] (rows : List TRow) (tids : List ℤ) : List TopicSummary :=
  let summaries := (firstOccKeys tids).map fun tid => summarizeTopic tid (groupRows rows tids tid)
  let real_topics := summaries.filter fun t => 2 ≤ t.n_videos
  let singletons := summaries.filter fun t => t.n_videos < 2
  let merged := if singletons ≠ [] then real_topics ++ [miscSummary singletons] else real_topics
  merged.insertionSort score

end TopicService

/-- The baseline rule exactly as the specification words it (claim C6),
for comparison with the implementation's `computeBaseline`: the element
at index `count / 2` of the ascending-sorted `views_per_day` values of
the first `baseline_window` records in descending publish-time order
(fewer if there are fewer records), and `1.0` when that window is
empty. -/
def baselineSpec (bw : ℕ) (now : ℤ) (rows : List RawRecord) : ℚ :=
  let window := (AnalyticsService.sortNewestFirst (AnalyticsService.enrichRows now rows)).take bw
  let vs := (window.map (·.views_per_day)).insertionSort (· ≤ ·)
  if vs = [] then 1 else vs.getD (vs.length / 2) 0

/-- The KPI median rule exactly as the specification words it (claim
C10), for comparison with the implementation's `medianRel`: for an even
count the arithmetic mean of the two middle elements of the
ascending-sorted values (indices `n/2 - 1` and `n/2`), for an odd count
the middle element, and `0.0` for the empty list. -/
def medianRelSpec (l : List ℚ) : ℚ :=
  if l = [] then 0
  else
    let s := l.insertionSort (· ≤ ·)
    if l.length % 2 = 1 then s.getD (l.length / 2) 0
    else (s.getD (l.length / 2 - 1) 0 + s.getD (l.length / 2) 0) / 2

/-- A raw record with the given publish instant and view count; the
remaining fields are fixed (they do not influence the quantities under
study). -/
def mkRec (pub views : ℤ) : RawRecord :=
  { video_id := "v", title := "t", published_at := pub, duration_seconds := 0,
    views := views, likes := 0, comments := 0 }

/-- A demo request (`channel_id` with the schema's defaults
`n_videos=50`, `baseline_window=20`). -/
def reqDemo : ChannelAnalysisRequest :=
  { channel_id := "UC_demo", n_videos := 50, baseline_window := 20 }

/-- A record published 28 whole days before the `now` instant
`28 * 86400`, with 140 views. -/
def recC3 : RawRecord := mkRec 0 140

/-- Three records of the same 5-day age (one second apart): two with 0
views and one with 100 views.  At `now = 10 * 86400` their
`views_per_day` values are `[0, 0, 20]`. -/
def rowsC4 : List RawRecord :=
  [mkRec (5 * 86400) 0, mkRec (5 * 86400 - 1) 0, mkRec (5 * 86400 - 2) 100]

/-- Three records aged exactly one whole day at `now = 0`, with views
10, 20 and 30, so that their `views_per_day` values are `[10, 20, 30]`
(the specification's baseline scenario). -/
def rowsC6 : List RawRecord :=
  [mkRec (-86400) 10, mkRec (-86401) 20, mkRec (-86402) 30]

/-- Two records aged exactly one whole day at `now = 0` with views 10
and 30, so that their `views_per_day` values are `[10, 30]`. -/
def rowsC10 : List RawRecord :=
  [mkRec (-86400) 10, mkRec (-86401) 30]

/-- A concrete instance of the abstracted `np.allclose(y, y[0])` test of
`ModelService.train_and_explain`: all values equal to the first.  When
every `relative_performance` value is one and the same rational, the
float log targets are all literally equal, so `np.allclose` is `True`
exactly as this predicate says. -/
def closeEq : List ℚ → Bool := fun l => l.all (· = l.headD 0)

/-- A model row carrying `relative_performance = rp` and every feature
key with value 1. -/
def mrowFull (rp : ℚ) : ModelService.MRow :=
  { rp? := some rp, feat := fun _ => some 1 }

/-- A model row carrying `relative_performance = rp` and every feature
key except `has_number`. -/
def mrowNoHasNumber (rp : ℚ) : ModelService.MRow :=
  { rp? := some rp, feat := fun f => if f = .hasNumber then none else some 1 }

/-- Five rows, all with `relative_performance = 2`; the first one lacks
the `has_number` key while the other four carry it, so the `has_number`
DataFrame column exists but holds one NaN. -/
def rowsC7 : List ModelService.MRow :=
  [mrowNoHasNumber 2, mrowFull 2, mrowFull 2, mrowFull 2, mrowFull 2]

/-- A topic row with the given publish instant and relative
performance; the remaining fields are fixed. -/
def mkTRow (pub : ℤ) (rp : ℚ) : TopicService.TRow :=
  { video_id := "v", title := "t", published_at := pub, views_per_day := 1,
    relative_performance := rp }

/-- Four time-ordered topic rows whose momentum is exactly `-0.15`:
relative performance 1, 1, 0.85, 0.85 (adaptive window k = 2). -/
def trowsBoundaryA : List TopicService.TRow :=
  [mkTRow 0 1, mkTRow 1 1, mkTRow 2 (17/20), mkTRow 3 (17/20)]

/-- Four time-ordered topic rows whose momentum is exactly `-0.16`:
relative performance 1, 1, 0.84, 0.84 (adaptive window k = 2). -/
def trowsBoundaryB : List TopicService.TRow :=
  [mkTRow 0 1, mkTRow 1 1, mkTRow 2 (21/25), mkTRow 3 (21/25)]

/-- A trivially-true comparator standing in for the abstracted
`_topic_score` ordering in concrete instantiations. -/
def scoreTrivial : TopicService.TopicSummary → TopicService.TopicSummary → Prop :=
  fun _ _ => True

instance : DecidableRel scoreTrivial := fun _ _ => isTrue trivial

theorem roundHalfEven_nonneg {q : ℚ} (hq : 0 ≤ q) : 0 ≤ roundHalfEven q := by
  unfold roundHalfEven
  have hn : (0 : ℤ) ≤ ⌊q⌋ := Int.floor_nonneg.mpr hq
  dsimp only
  split
  · exact hn
  · split
    · omega
    · split <;> omega

theorem pyRound_nonneg (digits : ℕ) {q : ℚ} (hq : 0 ≤ q) : 0 ≤ pyRound digits q := by
  unfold pyRound
  refine div_nonneg ?_ (by positivity)
  exact_mod_cast roundHalfEven_nonneg (mul_nonneg hq (by positivity))

/-- C5 (corrected): `numeric_rates` with `views = 1`, `likes = 2`,
`comments = 0` returns `engagement_rate = 2` and `likes_rate = 2`, both
strictly greater than 1 — refuting the claim that, for positive views,
each of the three rates lies in the closed interval `[0, 1]`. -/
theorem C5_rates_exceed_one :
    FeatureService.numeric_rates 1 2 0 =
      { engagement_rate := 2, likes_rate := 2, comments_rate := 0 } ∧
    ¬ ((FeatureService.numeric_rates 1 2 0).engagement_rate ≤ 1 ∧
       (FeatureService.numeric_rates 1 2 0).likes_rate ≤ 1) := by
  constructor
  · norm_num [FeatureService.numeric_rates, pyRound, roundHalfEven]
  · norm_num [FeatureService.numeric_rates, pyRound, roundHalfEven]

/-- C5 (amended): `numeric_rates` returns all three rates equal to `0.0`
when `views ≤ 0`, and otherwise each of the three rates is non-negative
(the rates are not bounded by 1). -/
theorem C5_rates_zero_or_nonneg (views likes comments : ℤ) :
    (views ≤ 0 →
      FeatureService.numeric_rates views likes comments =
        { engagement_rate := 0, likes_rate := 0, comments_rate := 0 }) ∧
    (0 < views →
      0 ≤ (FeatureService.numeric_rates views likes comments).engagement_rate ∧
      0 ≤ (FeatureService.numeric_rates views likes comments).likes_rate ∧
      0 ≤ (FeatureService.numeric_rates views likes comments).comments_rate) := by
  constructor
  · intro h
    have hv : max views 0 = 0 := by omega
    simp [FeatureService.numeric_rates, hv]
  · intro h
    have hv : ¬ (max views 0 ≤ 0) := by omega
    have hvq : (0 : ℚ) < ((max views 0 : ℤ) : ℚ) := by
      have : (0 : ℤ) < max views 0 := by omega
      exact_mod_cast this
    have hl : (0 : ℚ) ≤ ((max likes 0 : ℤ) : ℚ) := by
      have : (0 : ℤ) ≤ max likes 0 := by omega
      exact_mod_cast this
    have hc : (0 : ℚ) ≤ ((max comments 0 : ℤ) : ℚ) := by
      have : (0 : ℤ) ≤ max comments 0 := by omega
      exact_mod_cast this
    refine ⟨?_, ?_, ?_⟩ <;>
      simp only [FeatureService.numeric_rates, if_neg hv] <;>
      exact pyRound_nonneg 8 (div_nonneg (by linarith) (le_of_lt hvq))

/-- C5 witness: the amended statement evaluated at `(-1, 5, 7)` (zero
branch) and at `(2, 1, 1)` (non-negative branch). -/
theorem C5_rates_zero_or_nonneg_witness :
    FeatureService.numeric_rates (-1) 5 7 =
      { engagement_rate := 0, likes_rate := 0, comments_rate := 0 } ∧
    0 ≤ (FeatureService.numeric_rates 2 1 1).engagement_rate :=
  ⟨(C5_rates_zero_or_nonneg (-1) 5 7).1 (by norm_num),
   ((C5_rates_zero_or_nonneg 2 1 1).2 (by norm_num)).1⟩

/-- C2 (code_bug): for every request, instant and record list,
`run_channel_analysis` never returns a response — the
`AnalyticsResponse` schema requires the `channel` field, which the
orchestrator's constructor call (lines 123-135) never passes, so the
pydantic construction raises a `ValidationError` on every run. -/
theorem C2_run_always_raises (req : ChannelAnalysisRequest) (now : ℤ)
    (rows : List RawRecord) :
    AnalyticsService.run_channel_analysis req now rows =
      .error "ValidationError: field required: channel" := rfl

/-- C1 (amended): the orchestrator does not invoke the Driver Model or
the Topic Engine — the drivers and recommendations it assembles into
the response payload are the fixed two-element placeholder lists, for
every request, instant and record list alike. -/
theorem C1_drivers_fixed_placeholder (req : ChannelAnalysisRequest) (now : ℤ)
    (rows : List RawRecord) :
    (AnalyticsService.assemblePayload req now rows).drivers =
      AnalyticsService.dummyDrivers ∧
    (AnalyticsService.assemblePayload req now rows).recommendations =
      AnalyticsService.dummyRecommendations :=
  ⟨rfl, rfl⟩

/-- C1 (counterexample): for the run over the empty record list, the
orchestrator's assembled drivers are the two hard-coded placeholders,
while the Driver Model's output for the same records has empty drivers
— so the drivers list of the final result does not equal the Driver
Model's output for the run's records. -/
theorem C1_drivers_differ_from_model :
    (AnalyticsService.assemblePayload reqDemo 0 []).drivers =
      AnalyticsService.dummyDrivers ∧
    ModelService.train_and_explain_guards closeEq [] =
      .ok (some { drivers := [], recommendations := [],
                  warnings := [ModelService.missingRpMsg] }) ∧
    AnalyticsService.dummyDrivers ≠ ([] : List DriverEffect) := by
  refine ⟨rfl, rfl, ?_⟩
  simp [AnalyticsService.dummyDrivers]

/-- C3 (counterexample): a record with 140 views published 28 whole days
before `now` gets `views_per_day = 140 / 28 = 5`, not
`140 / clamp(28, 1, 14) = 10` — the divisor does exceed 14 days, so the
claimed 14-day cap is absent from the code. -/
theorem C3_no_fourteen_day_cap :
    ((AnalyticsService.enrichRows (28 * 86400) [recC3]).getD 0 default).views_per_day = 5 ∧
    (5 : ℚ) ≠ 140 / 14 := by
  constructor
  · norm_num [AnalyticsService.enrichRows, AnalyticsService.age_days, recC3, mkRec, Int.fdiv]
  · norm_num

/-- C3 (amended): for every record,
`views_per_day = views / age_days` with
`age_days = max(whole days between now and the publish time, 1)` and no
upper cap — the divisor grows with the video's age. -/
theorem C3_views_per_day_uncapped (now : ℤ) (rows : List RawRecord) (i : ℕ)
    (h : i < rows.length) :
    ((AnalyticsService.enrichRows now rows).getD i default).views_per_day =
      ((rows.get ⟨i, h⟩).views : ℚ) /
        ((max (Int.fdiv (now - (rows.get ⟨i, h⟩).published_at) 86400) 1 : ℤ) : ℚ) := by
  have hl : i < (AnalyticsService.enrichRows now rows).length := by
    simpa [AnalyticsService.enrichRows] using h
  rw [List.getD_eq_getElem _ _ hl]
  simp [AnalyticsService.enrichRows, AnalyticsService.age_days, List.getElem_map]

/-- C3 witness: the amended statement evaluated at the 28-day-old
record. -/
theorem C3_views_per_day_uncapped_witness :
    ((AnalyticsService.enrichRows (28 * 86400) [recC3]).getD 0 default).views_per_day =
      (([recC3].get ⟨0, by norm_num⟩).views : ℚ) /
        ((max (Int.fdiv ((28 * 86400) - ([recC3].get ⟨0, by norm_num⟩).published_at) 86400) 1 : ℤ) : ℚ) :=
  C3_views_per_day_uncapped (28 * 86400) [recC3] 0 (by norm_num)

theorem mem_enrichRows_views_per_day {now : ℤ} {rows : List RawRecord}
    {e : EnrichedRecord} (he : e ∈ AnalyticsService.enrichRows now rows) :
    e.views_per_day =
      (e.raw.views : ℚ) / ((AnalyticsService.age_days now e.raw.published_at : ℤ) : ℚ) := by
  rcases List.mem_map.mp he with ⟨r, _, rfl⟩
  rfl

theorem take_min_length {α : Type} (l : List α) (n : ℕ) :
    l.take (min n l.length) = l.take n := by
  rcases le_total n l.length with h | h
  · rw [min_eq_left h]
  · rw [min_eq_right h, List.take_length, List.take_of_length_le h]

/-- C4 (counterexample): over three same-age records with views
`[0, 0, 100]` (views-per-day `[0, 0, 20]`) the computed baseline is the
lower median `0`, even though one record has strictly positive views —
refuting the claim that the baseline is positive whenever any record
has positive views. -/
theorem C4_baseline_zero_despite_positive_views :
    (∃ r ∈ rowsC4, 0 < r.views) ∧
    ¬ (0 < AnalyticsService.computeBaseline 20 (10 * 86400) rowsC4) := by
  constructor
  · exact ⟨mkRec (5 * 86400 - 2) 100, by simp [rowsC4], by norm_num [mkRec]⟩
  · have h : AnalyticsService.computeBaseline 20 (10 * 86400) rowsC4 = 0 := by
      norm_num [AnalyticsService.computeBaseline, AnalyticsService.baselineOfWindow,
        AnalyticsService.baselineWindow, AnalyticsService.sortNewestFirst,
        AnalyticsService.enrichRows, AnalyticsService.age_days, rowsC4, mkRec,
        List.insertionSort, List.orderedInsert, AnalyticsService.pubDesc,
        List.cons_ne_nil, Int.fdiv]
    rw [h]
    norm_num

theorem baselineOfWindow_pos (window : List EnrichedRecord)
    (hne : window ≠ [])
    (hpos : ∀ x ∈ window.map (·.views_per_day), 0 < x) :
    0 < AnalyticsService.baselineOfWindow window := by
  unfold AnalyticsService.baselineOfWindow
  have hvslen : 0 < ((window.map (·.views_per_day)).insertionSort (· ≤ ·)).length := by
    rw [List.length_insertionSort, List.length_map]
    exact List.length_pos.mpr hne
  have hvsne : ¬ ((window.map (·.views_per_day)).insertionSort (· ≤ ·) = []) := by
    intro hnil
    rw [hnil] at hvslen
    simp at hvslen
  rw [if_neg hvsne]
  have hidx : ((window.map (·.views_per_day)).insertionSort (· ≤ ·)).length / 2 <
      ((window.map (·.views_per_day)).insertionSort (· ≤ ·)).length :=
    Nat.div_lt_self hvslen (by norm_num)
  rw [List.getD_eq_getElem _ _ hidx]
  have hmem : ((window.map (·.views_per_day)).insertionSort (· ≤ ·))[((window.map (·.views_per_day)).insertionSort (· ≤ ·)).length / 2] ∈
      (window.map (·.views_per_day)).insertionSort (· ≤ ·) := List.getElem_mem hidx
  exact hpos _ ((List.perm_insertionSort (· ≤ ·) (window.map (·.views_per_day))).mem_iff.mp hmem)

/-- C4 (amended): for every non-empty record set and positive
`baseline_window`, the baseline is strictly positive whenever every
record in the baseline window (the most recent `min(baseline_window, n)`
records) has strictly positive views. -/
theorem C4_baseline_pos_of_window_pos (bw : ℕ) (now : ℤ) (rows : List RawRecord)
    (hbw : 0 < bw) (hrows : rows ≠ [])
    (hviews : ∀ e ∈ AnalyticsService.baselineWindow bw
        (AnalyticsService.sortNewestFirst (AnalyticsService.enrichRows now rows)),
        0 < e.raw.views) :
    0 < AnalyticsService.computeBaseline bw now rows := by
  unfold AnalyticsService.computeBaseline
  refine baselineOfWindow_pos _ ?_ ?_
  · have hr : 0 < rows.length := List.length_pos.mpr hrows
    have hs : (AnalyticsService.sortNewestFirst (AnalyticsService.enrichRows now rows)).length
        = rows.length := by
      simp [AnalyticsService.sortNewestFirst, AnalyticsService.enrichRows,
        List.length_insertionSort]
    refine List.length_pos.mp ?_
    simp only [AnalyticsService.baselineWindow, List.length_take, hs]
    omega
  · intro x hx
    rcases List.mem_map.mp hx with ⟨e, he, rfl⟩
    have he1 : e ∈ AnalyticsService.sortNewestFirst (AnalyticsService.enrichRows now rows) :=
      List.mem_of_mem_take (by simpa [AnalyticsService.baselineWindow] using he)
    have he2 : e ∈ AnalyticsService.enrichRows now rows :=
      (List.perm_insertionSort AnalyticsService.pubDesc
        (AnalyticsService.enrichRows now rows)).mem_iff.mp
        (by simpa [AnalyticsService.sortNewestFirst] using he1)
    rw [mem_enrichRows_views_per_day he2]
    have hv : (0 : ℚ) < (e.raw.views : ℚ) := by exact_mod_cast hviews e he
    have ha : (0 : ℚ) < ((AnalyticsService.age_days now e.raw.published_at : ℤ) : ℚ) := by
      have h1 : (0 : ℤ) < AnalyticsService.age_days now e.raw.published_at := by
        unfold AnalyticsService.age_days
        omega
      exact_mod_cast h1
    exact div_pos hv ha

/-- C4 witness: the amended statement evaluated on a single one-day-old
record with 7 views and `baseline_window = 5`. -/
theorem C4_baseline_pos_witness :
    0 < AnalyticsService.computeBaseline 5 0 [mkRec (-86400) 7] := by
  refine C4_baseline_pos_of_window_pos 5 0 [mkRec (-86400) 7] (by norm_num) (by simp) ?_
  intro e he
  simp only [AnalyticsService.baselineWindow, AnalyticsService.sortNewestFirst,
    AnalyticsService.enrichRows, List.map_cons, List.map_nil, List.insertionSort,
    List.orderedInsert, List.take, List.mem_singleton, List.length_singleton] at he
  subst he
  norm_num [mkRec]

/-- C6 (confirmed): for every record set and positive `baseline_window`
the computed baseline equals the specification's rule — the element at
index `count / 2` of the ascending-sorted `views_per_day` values of the
first `baseline_window` records in descending publish-time order, `1.0`
when the window is empty; and in the concrete scenario with
`views_per_day` values `[10, 20, 30]` and `baseline_window = 3` the
baseline is `20`. -/
theorem C6_baseline_matches_spec :
    (∀ (bw : ℕ) (now : ℤ) (rows : List RawRecord), 0 < bw →
      AnalyticsService.computeBaseline bw now rows = baselineSpec bw now rows) ∧
    AnalyticsService.computeBaseline 3 0 rowsC6 = 20 := by
  constructor
  · intro bw now rows _
    unfold AnalyticsService.computeBaseline baselineSpec AnalyticsService.baselineWindow
      AnalyticsService.baselineOfWindow
    rw [take_min_length]
  · norm_num [AnalyticsService.computeBaseline, AnalyticsService.baselineOfWindow,
      AnalyticsService.baselineWindow, AnalyticsService.sortNewestFirst,
      AnalyticsService.enrichRows, AnalyticsService.age_days, rowsC6, mkRec,
      List.insertionSort, List.orderedInsert, AnalyticsService.pubDesc,
      List.cons_ne_nil, Int.fdiv]

/-- C6 witness: the refinement equality evaluated at the concrete
scenario with `baseline_window = 5`. -/
theorem C6_baseline_matches_spec_witness :
    AnalyticsService.computeBaseline 5 0 rowsC6 = baselineSpec 5 0 rowsC6 :=
  C6_baseline_matches_spec.1 5 0 rowsC6 (by norm_num)

theorem medianRel_eq_medianRelSpec (l : List ℚ) :
    AnalyticsService.medianRel l = medianRelSpec l := by
  unfold AnalyticsService.medianRel medianRelSpec
  have hlen : (l.insertionSort (· ≤ ·)).length = l.length :=
    List.length_insertionSort (· ≤ ·) l
  by_cases h : l = []
  · subst h
    simp
  · have hs : ¬ (l.insertionSort (· ≤ ·) = []) := by
      intro hnil
      refine h (List.eq_nil_of_length_eq_zero ?_)
      rw [← hlen, hnil]
      rfl
    rw [if_neg hs, if_neg h, hlen]

/-- C10 (confirmed): the KPI median of relative performance follows the
averaged-median rule — mean of the two middle elements of the
ascending-sorted values for even counts, middle element for odd counts,
`0.0` for the empty set — while the baseline follows the
single-element-at-index-`n/2` rule: on the concrete two-record run the
KPI median is `2/3` but the index rule applied to the same sorted
relative-performance values yields `1`. -/
theorem C10_median_rules_differ (req : ChannelAnalysisRequest) (now : ℤ)
    (rows : List RawRecord) :
    (AnalyticsService.assemblePayload req now rows).kpis.median_relative_performance =
      medianRelSpec (AnalyticsService.relPerfValues req.baseline_window now rows) ∧
    (AnalyticsService.assemblePayload reqDemo 0 rowsC10).kpis.median_relative_performance
      = 2 / 3 ∧
    ((AnalyticsService.relPerfValues reqDemo.baseline_window 0 rowsC10).insertionSort (· ≤ ·)).getD
        (((AnalyticsService.relPerfValues reqDemo.baseline_window 0 rowsC10).insertionSort
            (· ≤ ·)).length / 2) 0 = 1 ∧
    (2 / 3 : ℚ) ≠ 1 := by
  refine ⟨medianRel_eq_medianRelSpec _, ?_, ?_, by norm_num⟩
  · norm_num [AnalyticsService.assemblePayload, AnalyticsService.kpisOf,
      AnalyticsService.medianRel, AnalyticsService.relPerfValues,
      AnalyticsService.processedRows, AnalyticsService.scoreRows,
      AnalyticsService.computeBaseline, AnalyticsService.baselineOfWindow,
      AnalyticsService.baselineWindow, AnalyticsService.sortNewestFirst,
      AnalyticsService.enrichRows, AnalyticsService.age_days, rowsC10, reqDemo, mkRec,
      List.insertionSort, List.orderedInsert, AnalyticsService.pubDesc,
      List.cons_ne_nil, Int.fdiv]
  · norm_num [AnalyticsService.relPerfValues, AnalyticsService.processedRows,
      AnalyticsService.scoreRows, AnalyticsService.computeBaseline,
      AnalyticsService.baselineOfWindow, AnalyticsService.baselineWindow,
      AnalyticsService.sortNewestFirst, AnalyticsService.enrichRows,
      AnalyticsService.age_days, rowsC10, reqDemo, mkRec,
      List.insertionSort, List.orderedInsert, AnalyticsService.pubDesc,
      List.cons_ne_nil, Int.fdiv]

/-- C7 (counterexample): five input rows, all with
`relative_performance = 2` (so the log target has literally zero
variance and the near-zero-variance condition holds), at least 5
positive rows and no feature column absent — yet
`train_and_explain` raises a `ValueError`: the first row lacks the
`has_number` key, so that column holds a NaN and the
`.astype(int)` cast of line 97-98 raises before the variance guard of
line 103 is reached.  The Driver Model therefore does not always return
an empty result with a warning when the near-zero-variance condition
holds. -/
theorem C7_astype_raises_under_variance_condition :
    ModelService.train_and_explain_guards closeEq rowsC7 =
      .error "ValueError: cannot convert float NaN to integer" ∧
    ¬ ((ModelService.filterRows rowsC7).length < 5) ∧
    (∀ f ∈ ModelService.FEATURES, ModelService.hasFeatureColumn rowsC7 f) ∧
    closeEq ((ModelService.filterRows rowsC7).filterMap (·.rp?)) = true := by
  refine ⟨rfl, by decide, by decide, by decide⟩

/-- C7 (amended): provided every boolean feature value is present on
the rows that survive filtering (no NaN reaches the integer casts), the
Driver Model's guard stage never raises: whenever fewer than 5 rows
have positive `relative_performance` after filtering, or some required
feature column is absent, or the near-zero-variance test on the log
target holds, it returns a result with empty drivers, empty
recommendations and a non-empty descriptive warning list. -/
theorem C7_guards_return_empty_with_warning (closeToFirst : List ℚ → Bool)
    (rows : List ModelService.MRow)
    (hbool : ∀ col ∈ ModelService.BOOL_FEATURES, ∀ r ∈ ModelService.filterRows rows,
        (r.feat col).isSome)
    (hcond : (ModelService.filterRows rows).length < 5 ∨
        (∃ f ∈ ModelService.FEATURES, ¬ ModelService.hasFeatureColumn rows f) ∨
        closeToFirst ((ModelService.filterRows rows).filterMap (·.rp?)) = true) :
    ∃ out, ModelService.train_and_explain_guards closeToFirst rows = .ok (some out) ∧
      out.drivers = [] ∧ out.recommendations = [] ∧ out.warnings ≠ [] := by
  by_cases h0 : ModelService.hasRpColumn rows
  case neg =>
    have heq : ModelService.train_and_explain_guards closeToFirst rows =
        .ok (some { drivers := [], recommendations := [],
                    warnings := [ModelService.missingRpMsg] }) := by
      simp only [ModelService.train_and_explain_guards]
      rw [if_pos h0]
    exact ⟨_, heq, rfl, rfl, by simp⟩
  case pos =>
    by_cases hlt : (ModelService.filterRows rows).length < 5
    case pos =>
      have heq : ModelService.train_and_explain_guards closeToFirst rows =
          .ok (some { drivers := [], recommendations := [],
                      warnings := (if rows.length < 8 then [ModelService.tooFewVideosMsg]
                          else []) ++ [ModelService.notEnoughRowsMsg] }) := by
        simp only [ModelService.train_and_explain_guards]
        rw [if_neg (not_not_intro h0), if_pos hlt]
      exact ⟨_, heq, rfl, rfl, by simp⟩
    case neg =>
      by_cases hm : (ModelService.FEATURES.filter
          fun f => ¬ ModelService.hasFeatureColumn rows f) ≠ []
      case pos =>
        have heq : ModelService.train_and_explain_guards closeToFirst rows =
            .ok (some { drivers := [], recommendations := [],
                        warnings := (if rows.length < 8 then [ModelService.tooFewVideosMsg]
                            else []) ++ [ModelService.missingFeaturesMsg
                              (ModelService.FEATURES.filter
                                fun f => ¬ ModelService.hasFeatureColumn rows f)] }) := by
          simp only [ModelService.train_and_explain_guards]
          rw [if_neg (not_not_intro h0), if_neg hlt, if_pos hm]
        exact ⟨_, heq, rfl, rfl, by simp⟩
      case neg =>
        have hast : (ModelService.BOOL_FEATURES.any
            fun col => (ModelService.filterRows rows).any fun r => (r.feat col).isNone)
              = false := by
          rw [List.any_eq_false]
          intro col hcol
          intro hrun
          rcases List.any_eq_true.mp hrun with ⟨r, hr, hnone⟩
          have hsome := hbool col hcol r hr
          rw [Option.isNone_iff_eq_none.mp hnone] at hsome
          simp at hsome
        have hclose : closeToFirst ((ModelService.filterRows rows).filterMap (·.rp?))
            = true := by
          rcases hcond with h | ⟨f, hf, hnc⟩ | h
          · exact absurd h hlt
          · exfalso
            have hfm : f ∈ ModelService.FEATURES.filter
                (fun f => ¬ ModelService.hasFeatureColumn rows f) :=
              List.mem_filter.mpr ⟨hf, by simpa using hnc⟩
            rw [not_not.mp hm] at hfm
            simp at hfm
          · exact h
        have heq : ModelService.train_and_explain_guards closeToFirst rows =
            .ok (some { drivers := [], recommendations := [],
                        warnings := (if rows.length < 8 then [ModelService.tooFewVideosMsg]
                            else []) ++ [ModelService.zeroVarianceMsg] }) := by
          simp only [ModelService.train_and_explain_guards]
          rw [if_neg (not_not_intro h0), if_neg hlt, if_neg hm,
            if_neg (by rw [hast]; simp), if_pos hclose]
        exact ⟨_, heq, rfl, rfl, by simp⟩

/-- C7 witness: the amended statement evaluated on the empty row list,
which satisfies the fewer-than-5-rows condition. -/
theorem C7_guards_witness :
    ∃ out, ModelService.train_and_explain_guards closeEq [] = .ok (some out) ∧
      out.drivers = [] ∧ out.recommendations = [] ∧ out.warnings ≠ [] :=
  C7_guards_return_empty_with_warning closeEq []
    (by
      intro col hcol r hr
      simp [ModelService.filterRows] at hr)
    (Or.inl (by simp [ModelService.filterRows]))

theorem resolveNoiseAux_length (ls : List ℤ) (next : ℤ) :
    (TopicService.resolveNoiseAux ls next).length = ls.length := by
  induction ls generalizing next with
  | nil => rfl
  | cons l ls ih =>
    by_cases h : l = -1 <;> simp [TopicService.resolveNoiseAux, h, ih]

theorem resolveNoiseAux_getElem? (ls : List ℤ) (next : ℤ) (k : ℕ) :
    (TopicService.resolveNoiseAux ls next)[k]? =
      (ls[k]?).map fun v =>
        if v = -1 then next + (((ls.take k).count (-1) : ℕ) : ℤ) else v := by
  induction ls generalizing next k with
  | nil => simp [TopicService.resolveNoiseAux]
  | cons l ls ih =>
    cases k with
    | zero =>
      by_cases h : l = -1 <;> simp [TopicService.resolveNoiseAux, h]
    | succ k =>
      by_cases h : l = -1
      · subst h
        rw [show TopicService.resolveNoiseAux (-1 :: ls) next =
            next :: TopicService.resolveNoiseAux ls (next + 1) from by
              simp [TopicService.resolveNoiseAux]]
        rw [List.getElem?_cons_succ, List.getElem?_cons_succ, ih]
        cases hv : ls[k]? with
        | none => simp
        | some v =>
          simp only [Option.map_some']
          congr 1
          by_cases hv1 : v = -1
          · rw [if_pos hv1, if_pos hv1, List.take_succ_cons, List.count_cons_self]
            push_cast
            ring
          · rw [if_neg hv1, if_neg hv1]
      · rw [show TopicService.resolveNoiseAux (l :: ls) next =
            l :: TopicService.resolveNoiseAux ls next from by
              simp [TopicService.resolveNoiseAux, h]]
        rw [List.getElem?_cons_succ, List.getElem?_cons_succ, ih]
        cases hv : ls[k]? with
        | none => simp
        | some v =>
          simp only [Option.map_some']
          congr 1
          by_cases hv1 : v = -1
          · rw [if_pos hv1, if_pos hv1, List.take_succ_cons,
              List.count_cons_of_ne (by omega : (-1 : ℤ) ≠ l)]
          · rw [if_neg hv1, if_neg hv1]

theorem count_take_lt_count_take (raw : List ℤ) (i j : ℕ) (hij : i < j)
    (hi : raw[i]? = some (-1)) :
    (raw.take i).count (-1) < (raw.take j).count (-1) := by
  have h1 : (raw.take (i + 1)).count (-1) = (raw.take i).count (-1) + 1 := by
    rw [List.take_succ, hi]
    simp [List.count_append]
  have h2 : (raw.take (i + 1)).count (-1) ≤ (raw.take j).count (-1) :=
    ((List.take_prefix_take_left raw (by omega : i + 1 ≤ j)).sublist).count_le _
  omega

theorem resolveNoise_noise_values (raw : List ℤ) (m : ℤ) (hm : raw.max? = some m)
    (i j : ℕ) (hne : i ≠ j) (hi : raw[i]? = some (-1)) (hj : j < raw.length) :
    ∃ a b, (TopicService.resolveNoise raw)[i]? = some a ∧
      (TopicService.resolveNoise raw)[j]? = some b ∧ a ≠ b := by
  have hbound : ∀ b ∈ raw, b ≤ m :=
    (List.max?_le_iff (fun _ _ _ => sup_le_iff) hm).mp le_rfl
  have hres : TopicService.resolveNoise raw =
      TopicService.resolveNoiseAux raw (if (0 : ℤ) ≤ m then m + 1 else 0) := by
    simp [TopicService.resolveNoise, hm]
  have hnext : m < (if (0 : ℤ) ≤ m then m + 1 else 0) := by split <;> omega
  have hjv : raw[j]? = some (raw.get ⟨j, hj⟩) := by
    rw [List.getElem?_eq_getElem hj]
    simp [List.get_eq_getElem]
  rw [hres, resolveNoiseAux_getElem?, resolveNoiseAux_getElem?, hi, hjv]
  simp only [Option.map_some', if_pos rfl]
  by_cases hj1 : raw.get ⟨j, hj⟩ = -1
  · rw [if_pos hj1]
    refine ⟨_, _, rfl, rfl, ?_⟩
    intro hcontra
    have hcount : (raw.take i).count (-1) = (raw.take j).count (-1) := by omega
    rcases Nat.lt_or_ge i j with hlt | hge
    · exact absurd hcount (Nat.ne_of_lt (count_take_lt_count_take raw i j hlt hi))
    · have hjlt : j < i := by omega
      have : (raw.take j).count (-1) < (raw.take i).count (-1) :=
        count_take_lt_count_take raw j i hjlt (by rw [hjv, hj1])
      omega
  · rw [if_neg hj1]
    refine ⟨_, _, rfl, rfl, ?_⟩
    have hle : raw.get ⟨j, hj⟩ ≤ m :=
      hbound _ (by simp [List.get_eq_getElem, List.getElem_mem])
    have hc : (0 : ℤ) ≤ (((raw.take i).count (-1) : ℕ) : ℤ) := by positivity
    omega

theorem remap_unique_nodup (resolved : List ℤ) :
    (resolved.dedup.insertionSort (· ≤ ·)).Nodup :=
  ((List.perm_insertionSort (· ≤ ·) resolved.dedup).nodup_iff).mpr
    (List.nodup_dedup resolved)

theorem remap_unique_mem (resolved : List ℤ) (x : ℤ) :
    x ∈ resolved.dedup.insertionSort (· ≤ ·) ↔ x ∈ resolved :=
  ((List.perm_insertionSort (· ≤ ·) resolved.dedup).mem_iff).trans List.mem_dedup

theorem remap_unique_pairwise_lt (resolved : List ℤ) :
    (resolved.dedup.insertionSort (· ≤ ·)).Pairwise (· < ·) := by
  have hs : (resolved.dedup.insertionSort (· ≤ ·)).Pairwise (· ≤ ·) :=
    List.sorted_insertionSort (· ≤ ·) resolved.dedup
  have hn : (resolved.dedup.insertionSort (· ≤ ·)).Pairwise (· ≠ ·) :=
    remap_unique_nodup resolved
  exact (hs.and hn).imp fun h => lt_of_le_of_ne h.1 h.2

theorem indexOf_lt_of_lt_of_pairwise {u : List ℤ} (hp : u.Pairwise (· < ·))
    {a b : ℤ} (ha : a ∈ u) (hb : b ∈ u) (hab : a < b) :
    List.indexOf a u < List.indexOf b u := by
  by_contra hcon
  have hia : List.indexOf a u < u.length := List.indexOf_lt_length.mpr ha
  have hib : List.indexOf b u < u.length := List.indexOf_lt_length.mpr hb
  rcases Nat.lt_or_ge (List.indexOf b u) (List.indexOf a u) with hlt | hge
  · have := List.pairwise_iff_get.mp hp ⟨List.indexOf b u, hib⟩ ⟨List.indexOf a u, hia⟩ hlt
    rw [List.indexOf_get hia, List.indexOf_get hib] at this
    omega
  · have heq : List.indexOf a u = List.indexOf b u := by omega
    have := (List.indexOf_inj ha hb).mp heq
    omega

theorem indexOf_lt_iff_lt {u : List ℤ} (hp : u.Pairwise (· < ·))
    {a b : ℤ} (ha : a ∈ u) (hb : b ∈ u) :
    a < b ↔ List.indexOf a u < List.indexOf b u := by
  constructor
  · exact indexOf_lt_of_lt_of_pairwise hp ha hb
  · intro h
    rcases lt_trichotomy a b with h1 | h1 | h1
    · exact h1
    · subst h1
      omega
    · have := indexOf_lt_of_lt_of_pairwise hp hb ha h1
      omega

theorem foldl_keys_mem (x : ℤ) :
    ∀ tids acc : List ℤ,
      x ∈ tids.foldl (fun acc t => if t ∈ acc then acc else acc ++ [t]) acc →
      x ∈ acc ∨ x ∈ tids := by
  intro tids
  induction tids with
  | nil =>
    intro acc h
    exact Or.inl h
  | cons t ts ih =>
    intro acc h
    simp only [List.foldl_cons] at h
    rcases ih _ h with h1 | h1
    · by_cases ht : t ∈ acc
      · rw [if_pos ht] at h1
        exact Or.inl h1
      · rw [if_neg ht] at h1
        rcases List.mem_append.mp h1 with h2 | h2
        · exact Or.inl h2
        · simp only [List.mem_singleton] at h2
          subst h2
          exact Or.inr (List.mem_cons_self _ _)
    · exact Or.inr (List.mem_cons_of_mem _ h1)

theorem mem_firstOccKeys {tids : List ℤ} {x : ℤ}
    (hx : x ∈ TopicService.firstOccKeys tids) : x ∈ tids := by
  rcases foldl_keys_mem x tids []
      (by simpa [TopicService.firstOccKeys] using hx) with h1 | h1
  · simp at h1
  · exact h1

theorem build_topic_summaries_ids (score : TopicService.TopicSummary →
      TopicService.TopicSummary → Prop) [DecidableRel score]
    (rows : List TopicService.TRow) (tids : List ℤ) :
    ∀ s ∈ TopicService.build_topic_summaries score rows tids,
      s.topic_id = -1 ∨ s.topic_id ∈ tids := by
  intro s hs
  simp only [TopicService.build_topic_summaries] at hs
  have hs1 := (List.perm_insertionSort score _).mem_iff.mp hs
  have hsum : ∀ t ∈ (TopicService.firstOccKeys tids).map
      (fun tid => TopicService.summarizeTopic tid (TopicService.groupRows rows tids tid)),
      t.topic_id ∈ tids := by
    intro t ht
    rcases List.mem_map.mp ht with ⟨tid, htid, rfl⟩
    exact mem_firstOccKeys htid
  by_cases hsing : ((TopicService.firstOccKeys tids).map
      (fun tid => TopicService.summarizeTopic tid
        (TopicService.groupRows rows tids tid))).filter
          (fun t => t.n_videos < 2) ≠ []
  · rw [if_pos hsing] at hs1
    rcases List.mem_append.mp hs1 with h1 | h1
    · exact Or.inr (hsum _ (List.mem_of_mem_filter h1))
    · simp only [List.mem_singleton] at h1
      subst h1
      exact Or.inl rfl
  · rw [if_neg hsing] at hs1
    exact Or.inr (hsum _ (List.mem_of_mem_filter hs1))

/-- C8 (confirmed): for every non-empty raw label list the per-video
topic ids produced by `_cluster` form a dense sequential range starting
at 0 (same length as the input — noise points are not dropped; each
noise point's id is shared with no other video; ids are remapped
order-preservingly, i.e. in ascending order of the resolved label
values); every topic summary id is either one of those dense ids or the
merged catch-all bucket's sentinel `-1`, and `-1` is not among the
dense ids. -/
theorem C8_cluster_dense_ids (raw : List ℤ) (rows : List TopicService.TRow)
    (score : TopicService.TopicSummary → TopicService.TopicSummary → Prop)
    [DecidableRel score] (hraw : raw ≠ []) :
    (TopicService.cluster raw).length = raw.length ∧
    (∃ k, (TopicService.cluster raw).toFinset = Finset.range k) ∧
    (∀ i j : ℕ, i ≠ j → raw[i]? = some (-1) → j < raw.length →
      (TopicService.cluster raw)[i]? ≠ (TopicService.cluster raw)[j]?) ∧
    (∀ i j : ℕ, ∀ a b : ℤ, ∀ x y : ℕ,
      (TopicService.resolveNoise raw)[i]? = some a →
      (TopicService.resolveNoise raw)[j]? = some b →
      (TopicService.cluster raw)[i]? = some x →
      (TopicService.cluster raw)[j]? = some y →
      (a < b ↔ x < y)) ∧
    (∀ s ∈ TopicService.build_topic_summaries score rows
        ((TopicService.cluster raw).map fun n : ℕ => (n : ℤ)),
      s.topic_id = -1 ∨ ∃ t ∈ TopicService.cluster raw, s.topic_id = (t : ℤ)) ∧
    (∀ t ∈ TopicService.cluster raw, (t : ℤ) ≠ -1) := by
  obtain ⟨m, hm⟩ : ∃ m, raw.max? = some m := by
    cases hmm : raw.max? with
    | none => exact absurd (List.max?_eq_none_iff.mp hmm) hraw
    | some m => exact ⟨m, rfl⟩
  have hlen : (TopicService.resolveNoise raw).length = raw.length := by
    rw [show TopicService.resolveNoise raw =
        TopicService.resolveNoiseAux raw (if (0 : ℤ) ≤ m then m + 1 else 0) from by
          simp [TopicService.resolveNoise, hm]]
    exact resolveNoiseAux_length _ _
  have hclen : (TopicService.cluster raw).length = raw.length := by
    simp [TopicService.cluster, TopicService.remapDense, hlen]
  have hmemres : ∀ {n : ℕ} {a : ℤ}, (TopicService.resolveNoise raw)[n]? = some a →
      a ∈ TopicService.resolveNoise raw := by
    intro n a h
    obtain ⟨hn, hv⟩ := List.getElem?_eq_some.mp h
    exact hv ▸ List.getElem_mem hn
  have hcl : ∀ {n : ℕ} {a : ℤ}, (TopicService.resolveNoise raw)[n]? = some a →
      (TopicService.cluster raw)[n]? = some (List.indexOf a
        ((TopicService.resolveNoise raw).dedup.insertionSort (· ≤ ·))) := by
    intro n a h
    simp [TopicService.cluster, TopicService.remapDense, List.getElem?_map, h]
  refine ⟨hclen, ?_, ?_, ?_, ?_, ?_⟩
  · refine ⟨((TopicService.resolveNoise raw).dedup.insertionSort (· ≤ ·)).length, ?_⟩
    ext n
    simp only [List.mem_toFinset, Finset.mem_range, TopicService.cluster,
      TopicService.remapDense, List.mem_map]
    constructor
    · rintro ⟨x, hx, rfl⟩
      exact List.indexOf_lt_length.mpr ((remap_unique_mem _ x).mpr hx)
    · intro hn
      refine ⟨((TopicService.resolveNoise raw).dedup.insertionSort (· ≤ ·)).get ⟨n, hn⟩,
        ?_, ?_⟩
      · exact (remap_unique_mem _ _).mp (List.get_mem _ _ hn)
      · exact List.get_indexOf (remap_unique_nodup _) ⟨n, hn⟩
  · intro i j hne hi hj
    rcases resolveNoise_noise_values raw m hm i j hne hi hj with ⟨a, b, hia, hjb, hab⟩
    rw [hcl hia, hcl hjb]
    intro hcon
    exact hab ((List.indexOf_inj ((remap_unique_mem _ a).mpr (hmemres hia))
      ((remap_unique_mem _ b).mpr (hmemres hjb))).mp (Option.some_inj.mp hcon))
  · intro i j a b x y hia hjb hix hjy
    have hx : x = List.indexOf a
        ((TopicService.resolveNoise raw).dedup.insertionSort (· ≤ ·)) := by
      rw [hcl hia] at hix
      exact (Option.some_inj.mp hix).symm
    have hy : y = List.indexOf b
        ((TopicService.resolveNoise raw).dedup.insertionSort (· ≤ ·)) := by
      rw [hcl hjb] at hjy
      exact (Option.some_inj.mp hjy).symm
    subst hx
    subst hy
    exact indexOf_lt_iff_lt (remap_unique_pairwise_lt _)
      ((remap_unique_mem _ a).mpr (hmemres hia))
      ((remap_unique_mem _ b).mpr (hmemres hjb))
  · intro s hs
    rcases build_topic_summaries_ids score rows _ s hs with h | h
    · exact Or.inl h
    · rcases List.mem_map.mp h with ⟨t, ht, heq⟩
      exact Or.inr ⟨t, ht, heq.symm⟩
  · intro t _
    omega

/-- C8 witness: the dense-ids statement evaluated at the concrete raw
label list `[-1, 0, 0, -1, 1]` (two noise points), no rows and the
trivial comparator. -/
theorem C8_cluster_dense_ids_witness :
    (TopicService.cluster [-1, 0, 0, -1, 1]).length = ([-1, 0, 0, -1, 1] : List ℤ).length ∧
    (∃ k, (TopicService.cluster [-1, 0, 0, -1, 1]).toFinset = Finset.range k) ∧
    (∀ i j : ℕ, i ≠ j → ([-1, 0, 0, -1, 1] : List ℤ)[i]? = some (-1) →
      j < ([-1, 0, 0, -1, 1] : List ℤ).length →
      (TopicService.cluster [-1, 0, 0, -1, 1])[i]? ≠
        (TopicService.cluster [-1, 0, 0, -1, 1])[j]?) ∧
    (∀ i j : ℕ, ∀ a b : ℤ, ∀ x y : ℕ,
      (TopicService.resolveNoise [-1, 0, 0, -1, 1])[i]? = some a →
      (TopicService.resolveNoise [-1, 0, 0, -1, 1])[j]? = some b →
      (TopicService.cluster [-1, 0, 0, -1, 1])[i]? = some x →
      (TopicService.cluster [-1, 0, 0, -1, 1])[j]? = some y →
      (a < b ↔ x < y)) ∧
    (∀ s ∈ TopicService.build_topic_summaries scoreTrivial []
        ((TopicService.cluster [-1, 0, 0, -1, 1]).map fun n : ℕ => (n : ℤ)),
      s.topic_id = -1 ∨ ∃ t ∈ TopicService.cluster [-1, 0, 0, -1, 1],
        s.topic_id = (t : ℤ)) ∧
    (∀ t ∈ TopicService.cluster [-1, 0, 0, -1, 1], (t : ℤ) ≠ -1) :=
  C8_cluster_dense_ids [-1, 0, 0, -1, 1] [] scoreTrivial (by simp)

/-- C9 (confirmed): for every topic summary over a non-empty item list,
the fatigue flag is true iff momentum is strictly below `-0.15` and the
video count is at least 4; the boundary checks hold — four rows with
momentum exactly `-0.15` give `fatigue = false`, and four rows with
momentum `-0.16` give `fatigue = true`. -/
theorem C9_fatigue_iff (tid : ℤ) (items : List TopicService.TRow)
    (_h : items ≠ []) :
    ((TopicService.summarizeTopic tid items).fatigue = true ↔
      (TopicService.summarizeTopic tid items).momentum < -(3/20) ∧
        4 ≤ items.length) ∧
    (TopicService.summarizeTopic 0 trowsBoundaryA).momentum = -(3/20) ∧
    (TopicService.summarizeTopic 0 trowsBoundaryA).fatigue = false ∧
    (TopicService.summarizeTopic 0 trowsBoundaryB).momentum = -(4/25) ∧
    trowsBoundaryB.length = 4 ∧
    (TopicService.summarizeTopic 0 trowsBoundaryB).fatigue = true := by
  refine ⟨?_, ?_, ?_, ?_, by simp [trowsBoundaryB], ?_⟩
  · simp only [TopicService.summarizeTopic, decide_eq_true_eq,
      List.length_insertionSort, List.length_map]
  · norm_num [TopicService.summarizeTopic, TopicService.qMean, trowsBoundaryA, mkTRow,
      List.insertionSort, List.orderedInsert, TopicService.pubAsc, TopicService.statMedian,
      List.cons_ne_nil]
  · norm_num [TopicService.summarizeTopic, TopicService.qMean, trowsBoundaryA, mkTRow,
      List.insertionSort, List.orderedInsert, TopicService.pubAsc, TopicService.statMedian,
      List.cons_ne_nil]
  · norm_num [TopicService.summarizeTopic, TopicService.qMean, trowsBoundaryB, mkTRow,
      List.insertionSort, List.orderedInsert, TopicService.pubAsc, TopicService.statMedian,
      List.cons_ne_nil]
  · norm_num [TopicService.summarizeTopic, TopicService.qMean, trowsBoundaryB, mkTRow,
      List.insertionSort, List.orderedInsert, TopicService.pubAsc, TopicService.statMedian,
      List.cons_ne_nil]

/-- C9 witness: the biconditional evaluated at the `-0.16` boundary
list. -/
theorem C9_fatigue_iff_witness :
    (((TopicService.summarizeTopic 0 trowsBoundaryB).fatigue = true ↔
      (TopicService.summarizeTopic 0 trowsBoundaryB).momentum < -(3/20) ∧
        4 ≤ trowsBoundaryB.length) ∧
    (TopicService.summarizeTopic 0 trowsBoundaryA).momentum = -(3/20) ∧
    (TopicService.summarizeTopic 0 trowsBoundaryA).fatigue = false ∧
    (TopicService.summarizeTopic 0 trowsBoundaryB).momentum = -(4/25) ∧
    trowsBoundaryB.length = 4 ∧
    (TopicService.summarizeTopic 0 trowsBoundaryB).fatigue = true) :=
  C9_fatigue_iff 0 trowsBoundaryB (by simp [trowsBoundaryB])
